import Mathlib

/-!
# Covenant CLI validation engine — shallow embedding

A shallow embedding of the cross-source consistency validation engine of the
covenant CLI (Rust), covering:

* the result accumulator (`src/validations/mod.rs`, `CovenantValidationContext`),
* the `required_or_ignored!` / `verify_equals!` macros,
* the expiration checks (`src/validations/neutron.rs`, `verify_expiration`),
* the bilateral IBC path/channel resolver
  (`src/validations/two_party_pol_covenant.rs`, `get_path_connection_and_channels`,
  and the inline resolver of `src/validations/single_party_pol_covenant.rs`),
* the ICS-20 voucher denom derivation (SHA-256 based),
* the fixed-point numeric checks (share sums, single-side LP limits, the
  pool-price sanity band),
* the two-party splits check and the swap-covenant stub validator.

Machine integers are embedded as `Nat`/`Int` with explicit bounds where the
source can overflow; `cosmwasm_std::Decimal` values are embedded by their
`Uint128` atomics (scale `10^18`); `rust_decimal::Decimal` values (96-bit
mantissa, exact decimal arithmetic for all magnitudes exercised here) are
embedded as `ℚ`.  Fallible code (panicking `unwrap`, `?`-aborts) is embedded
with `Option`.
-/

namespace CovenantCli

/-! ## Result accumulator (`src/validations/mod.rs`, lines 21-70)

`CovenantValidationContext` keeps two `HashMap<&str, Vec<String>>` maps.  We
embed each map as a function from key to the ordered list of recorded
messages; `valid`/`invalid` append, `valid_field`/`invalid_field` prepend the
field name (Rust `format!("{}: {}", field, message)`). -/

structure Ctx where
  checks : String → List String
  errors : String → List String

def Ctx.empty : Ctx := ⟨fun _ => [], fun _ => []⟩

def Ctx.valid (ctx : Ctx) (key message : String) : Ctx :=
  { ctx with
    checks := fun k => if k = key then ctx.checks k ++ [message] else ctx.checks k }

def Ctx.invalid (ctx : Ctx) (key message : String) : Ctx :=
  { ctx with
    errors := fun k => if k = key then ctx.errors k ++ [message] else ctx.errors k }

def Ctx.valid_field (ctx : Ctx) (key field message : String) : Ctx :=
  ctx.valid key (field ++ ": " ++ message)

def Ctx.invalid_field (ctx : Ctx) (key field message : String) : Ctx :=
  ctx.invalid key (field ++ ": " ++ message)

/-- The `required_or_ignored!` macro (`src/validations/mod.rs`, lines 72-81):
an empty value records the field as `required` (error), a non-empty value
records it as `ignored` (passing check) with no further validation. -/
def required_or_ignored (ctx : Ctx) (key field value : String) : Ctx :=
  if value = "" then ctx.invalid_field key field "required"
  else ctx.valid_field key field "ignored"

/-- The `verify_equals!` macro (`src/validations/mod.rs`, lines 83-92),
specialised to `String` operands: equality records `verified`, inequality
records the formatted error message (`error_fmt` applied to expected and
actual). -/
def verify_equals (ctx : Ctx) (key field expected actual : String)
    (error_fmt : String → String → String) : Ctx :=
  if actual = expected then ctx.valid_field key field "verified"
  else ctx.invalid_field key field (error_fmt expected actual)

/-! ## Swap covenant validator (`src/validations/swap_covenant.rs`, lines 20-31)

`SwapCovenantInstMsg::validate` only emits `debug!`/`info!` log lines (which
mention `msg.label`) and returns `Ok(())`; it never touches the validation
context.  The instantiation message carries many more fields in the real
schema; the stub reads none of them, so only `label` is embedded. -/

structure SwapCovenantInstMsg where
  label : String

/-- `SwapCovenantInstMsg::validate`: logging only, no context writes, always
`Ok(())` (embedded as `some` of the untouched context). -/
def swap_validate (_msg : SwapCovenantInstMsg) (ctx : Ctx) : Option Ctx :=
  some ctx

/-! ## Interchain party config and the forwarder `required_or_ignored` slices
(`src/validations/single_party_pol_covenant.rs`, lines 486-497 and 569-580)

The LP-forwarder and LS-forwarder blocks of the single-party validator start
with four `required_or_ignored!` invocations on string fields of a
`covenant_utils::InterchainCovenantParty`.  Only the fields read by those
slices are embedded (the remaining fields of the Rust struct feed the later
`verify_equals!`/contribution checks, embedded separately). -/

structure InterchainCovenantParty where
  party_receiver_addr : String
  addr : String
  host_to_party_chain_channel_id : String
  native_denom : String

/-- The four `required_or_ignored!` invocations at the head of the
LP-forwarder block (key `"lp_forwarder_config"`, lines 486-497) and of the
LS-forwarder block (key `"ls_forwarder_config"`, lines 569-580); the two
source blocks are textually identical up to the key. -/
def forwarder_required_or_ignored (ctx : Ctx) (key : String)
    (cfg : InterchainCovenantParty) : Ctx :=
  let ctx := required_or_ignored ctx key "party_receiver_addr" cfg.party_receiver_addr
  let ctx := required_or_ignored ctx key "addr" cfg.addr
  let ctx := required_or_ignored ctx key "host_to_party_chain_channel_id"
    cfg.host_to_party_chain_channel_id
  required_or_ignored ctx key "native_denom" cfg.native_denom

/-! ## Expirations (`cw_utils::Expiration` and
`src/validations/neutron.rs`, `verify_expiration`)

`cw_utils::Expiration` is `AtHeight(u64) | AtTime(Timestamp) | Never {}` with
a `#[derive(PartialOrd)]` ordering: variants compare by declaration order,
payloads lexicographically within a variant (`Timestamp` compares by its
nanosecond count).  The derived order is total on this enum, embedded here as
the boolean relations `leb`/`ltb`. -/

inductive Expiration where
  | atHeight (height : Nat)
  | atTime (nanos : Nat)
  | never

/-- Rust's derived `<=` on `cw_utils::Expiration` (variant order
`AtHeight < AtTime < Never`, payload comparison within a variant). -/
def Expiration.leb : Expiration → Expiration → Bool
  | .atHeight a, .atHeight b => a ≤ b
  | .atHeight _, .atTime _ => true
  | .atHeight _, .never => true
  | .atTime _, .atHeight _ => false
  | .atTime a, .atTime b => a ≤ b
  | .atTime _, .never => true
  | .never, .atHeight _ => false
  | .never, .atTime _ => false
  | .never, .never => true

/-- Rust's derived `<` on `cw_utils::Expiration`. -/
def Expiration.ltb : Expiration → Expiration → Bool
  | .atHeight a, .atHeight b => a < b
  | .atHeight _, .atTime _ => true
  | .atHeight _, .never => true
  | .atTime _, .atHeight _ => false
  | .atTime a, .atTime b => a < b
  | .atTime _, .never => true
  | .never, .atHeight _ => false
  | .never, .atTime _ => false
  | .never, .never => false

/-- `verify_expiration` (`src/validations/neutron.rs`, lines 8-44).  The live
inputs (current Neutron block height as `u128`, current wall-clock Unix time
in seconds) are passed explicitly; `Timestamp::seconds()` is the nanosecond
payload divided by `10^9`. -/
def verify_expiration (ctx : Ctx) (key field : String) (deadline : Expiration)
    (curBlock nowSecs : Nat) : Ctx :=
  match deadline with
  | .atHeight height =>
      if height > curBlock then ctx.valid_field key field "verified"
      else ctx.invalid_field key field "invalid block height: should be in the future"
  | .atTime nanos =>
      if nanos / 1000000000 > nowSecs then ctx.valid_field key field "verified"
      else ctx.invalid_field key field "invalid timestamp: should be in the future"
  | .never => ctx.valid_field key field "verified (note: never expires)"

/-- The deposit-deadline / lockup-config portion of the two-party validator
(`src/validations/two_party_pol_covenant.rs`, lines 82-98): both expirations
are checked for future-ness, then an additional error is recorded when the
lockup config is not strictly later (`<=` under the derived order) than the
deposit deadline. -/
def deposit_and_lockup_checks (ctx : Ctx) (deposit_deadline lockup_config : Expiration)
    (curBlock nowSecs : Nat) : Ctx :=
  let ctx := verify_expiration ctx "covenant" "deposit_deadline" deposit_deadline curBlock nowSecs
  let ctx := verify_expiration ctx "covenant" "lockup_config" lockup_config curBlock nowSecs
  if lockup_config.leb deposit_deadline then
    ctx.invalid_field "covenant" "lockup_config"
      "invalid lockup config: should be later than deposit deadline"
  else ctx

/-! ## Fixed-point numeric models

`cosmwasm_std::Decimal` is a `Uint128` count of `10^-18` atomics; we embed
such values by their atomics (`Nat`), with `Decimal::one()` at `10^18` and
the panicking `Uint128` addition guarded by `2^128`.

`rust_decimal::Decimal` (96-bit signed mantissa, scale 0-28, exact decimal
arithmetic) is embedded as `ℚ`; theorems about it carry magnitude bounds
keeping the source inside its exact (no rescaling, no overflow) regime. -/

/-- `Uint128` addition: panics (`None`) on overflow. -/
def uint128_add (a b : Nat) : Option Nat :=
  if a + b < 2 ^ 128 then some (a + b) else none

/-- `u128 -> i64` conversion (`.try_into()?`): aborts above `i64::MAX`. -/
def i64_of_u128 (a : Nat) : Option Int :=
  if a ≤ 9223372036854775807 then some (a : Int) else none

/-- `rust_decimal::Decimal::new(num, scale)`: the value `num * 10^-scale`. -/
def decimal_new (num : Int) (scale : Nat) : ℚ := (num : ℚ) / 10 ^ scale

/-- `round_dp_with_strategy(0, RoundingStrategy::AwayFromZero)`: any
fractional part rounds away from zero (ceiling for non-negative values,
floor for negative ones). -/
def round_dp0_away_from_zero (q : ℚ) : ℚ :=
  if 0 ≤ q then (⌈q⌉ : ℤ) else (⌊q⌋ : ℤ)

/-- Digits of a natural number (decimal display of an integral
`rust_decimal` value). -/
def natDisplay (n : Nat) : String := ⟨Nat.toDigits 10 n⟩

/-- `Display` of an integral-valued embedded decimal; the validator only
renders integral decimals in the messages embedded here. -/
def qDisplay (q : ℚ) : String :=
  (if q < 0 then "-" else "") ++ natDisplay q.num.natAbs ++
    (if q.den = 1 then "" else "/" ++ natDisplay q.den)

/-- Zero-padded 4-digit group, for the `{:.4}` renderings. -/
def pad4 (n : Nat) : String :=
  let ds := Nat.toDigits 10 n
  ⟨List.replicate (4 - ds.length) '0' ++ ds⟩

/-- Rust `format!("{:.4}", d)` on an embedded decimal: fixed four fractional
digits (midpoints, which the claims never exercise, are modelled half-up). -/
def fmt4 (q : ℚ) : String :=
  let n : Nat := (⌊|q| * 10000 + 1 / 2⌋).toNat
  (if q < 0 then "-" else "") ++ natDisplay (n / 10000) ++ "." ++ pad4 (n % 10000)

/-! ## Party share sum checks

Two-party: `src/validations/two_party_pol_covenant.rs`, lines 65-80
(`msg.party_a_share + msg.party_b_share == Decimal::one()`; on failure the
source records the same `party_b_share` error twice).

Single-party: `src/validations/single_party_pol_covenant.rs`, lines 435-482
(`ls_share`/`native_share` are rebuilt as `rust_decimal` values from their
`10^18`-scaled atomics via a fallible `i64` conversion, range-checked, then
summed and compared against `one`). -/

/-- Two-party share check (`two_party_pol_covenant.rs`, lines 65-80); shares
are `cosmwasm_std::Decimal` atomics, addition panics on `Uint128` overflow. -/
def two_party_share_checks (ctx : Ctx) (party_a_share party_b_share : Nat) : Option Ctx :=
  match uint128_add party_a_share party_b_share with
  | none => none
  | some sum =>
      some (if sum = 10 ^ 18 then
        (ctx.valid_field "covenant" "party_a_share" "verified").valid_field
          "covenant" "party_b_share" "verified"
      else
        ((ctx.invalid_field "covenant" "party_b_share"
            "invalid share: sum of shares should be 1.0").invalid_field
          "covenant" "party_b_share" "invalid share: sum of shares should be 1.0"))

/-- Single-party splitter share checks (`single_party_pol_covenant.rs`,
lines 435-482): each share is `Decimal::new(atomics.try_into()?, 18)`,
range-checked into `[0, 1]`, then the sum is compared against `one`. -/
def sp_share_range_and_sum_checks (ctx : Ctx) (ls_atomics native_atomics : Nat) :
    Option Ctx :=
  match i64_of_u128 ls_atomics with
  | none => none
  | some la =>
    let ls_share := decimal_new la 18
    let ctx := if 0 ≤ ls_share ∧ ls_share ≤ 1 then
        ctx.valid_field "remote_chain_splitter_config" "ls_share" "verified"
      else
        ctx.invalid_field "remote_chain_splitter_config" "ls_share"
          "invalid share: should be between 0 and 1"
    match i64_of_u128 native_atomics with
    | none => none
    | some na =>
      let native_share := decimal_new na 18
      let ctx := if 0 ≤ native_share ∧ native_share ≤ 1 then
          ctx.valid_field "remote_chain_splitter_config" "native_share" "verified"
        else
          ctx.invalid_field "remote_chain_splitter_config" "native_share"
            "invalid share: should be between 0 and 1"
      some (if ls_share + native_share = 1 then
          ctx.valid_field "remote_chain_splitter_config" "ls_share + native_share" "verified"
        else
          ctx.invalid_field "remote_chain_splitter_config" "ls_share + native_share"
            "invalid share: should sum up to 1")

/-! ## Single-side LP limit check (`src/validations/astroport.rs`, lines 211-263)

For each pool asset, `expected = (contribution - contribution *
Decimal::new(pct, 2)).round_dp_with_strategy(0, AwayFromZero)` is compared
(`verify_equals!`) against the configured limit (a `Uint128` lifted to a
decimal).  The asset A and asset B branches are textually identical up to the
field name and inputs.

The two `Decimal::from(..u128())` conversions (the contribution in the
caller, the limit in the slice) panic when the atomics exceed the 96-bit
mantissa; both are embedded as `none` guards.  The interior
`checked_mul`/`checked_sub` chain is embedded as exact `ℚ` arithmetic: with
`pct ≤ 100` and `contribution * 100 < 2^96` — the bounds carried by the
theorem below — the scale-2 mantissas `contribution * pct` and
`100 * contribution - contribution * pct` fit 96 bits, so the source neither
rescales (rounds) nor overflows and coincides with `ℚ`. -/

def verify_single_side_lp_limit (ctx : Ctx) (field : String)
    (contribution_atomics : Nat) (single_side_lp_limit_pct : Nat)
    (limit_atomics : Nat) : Option Ctx :=
  -- the caller's `Decimal::from(get_party_contribution(..).u128())`
  -- (`two_party_pol_covenant.rs`, lines 126-128): panics at `2^96`
  if contribution_atomics < 2 ^ 96 then
    -- `Decimal::from(lp_cfg.single_side_lp_limits...u128())`: panics at `2^96`
    if limit_atomics < 2 ^ 96 then
      let contribution : ℚ := (contribution_atomics : ℚ)
      let asset_limit : ℚ := (limit_atomics : ℚ)
      let expected_asset_limit :=
        round_dp0_away_from_zero
          (contribution - contribution * decimal_new single_side_lp_limit_pct 2)
      some (if asset_limit = expected_asset_limit then
        ctx.valid_field "liquid_pooler_config" field "verified"
      else
        ctx.invalid_field "liquid_pooler_config" field
          ("invalid single side lp limit: expected " ++ qDisplay expected_asset_limit ++
            " | actual " ++ qDisplay asset_limit))
    else none
  else none

/-- The claim's formula, written as in the spec:
`round_away_from_zero(contribution - contribution * limitPct / 100, 0 dp)`. -/
def singleSideLpLimit (contribution : ℚ) (limitPct : Nat) : ℚ :=
  round_dp0_away_from_zero (contribution - contribution * limitPct / 100)

/-! ## Pool price sanity band

Two-party variant: `src/validations/astroport.rs`, lines 121-183.
Single-party variant: `src/validations/single_party_pol_covenant.rs`,
lines 789-855 (same logic, different message text and a narrower `i64`
conversion for the configured spot price).

`current_pool_price = asset_a_pool_amount / asset_b_pool_amount`
(`checked_div(..).unwrap_or_default()`: zero on division by zero); the
configured `expected_spot_price` (`10^18`-scaled atomics) must lie in the
half-open `Range { start: current * 0.95, end: current * 1.05 }`, and both
branches record a passing check — the out-of-band branch is an explicit
"just a warning for now".

Panic/abort paths embedded as `none` guards: `Decimal::from(pool amount)`
panics when a parsed `u128` reserve reaches the 96-bit mantissa; the
two-party spot-price conversion `try_from_i128_with_scale(x.try_into()?, 18)`
aborts at `2^127` (the `i128` conversion) and at `2^96` (the mantissa), the
single-party one (`Decimal::new(x.try_into()?, 18)`) at `i64::MAX`; and each
`checked_mul(current, 0.95 / 1.05).unwrap()` panics when the product value
can no longer be carried by a 96-bit mantissa at any scale (guarded here at
the product's value — exact whenever the product is exactly representable,
which the theorems' bounds ensure).  `checked_div` rounds its quotient to 28
significant digits; it is embedded as exact `ℚ` division, and the theorems
restrict to reserves with `b ∣ a` and a small integral quotient, where the
rounded and the exact quotient coincide. -/

def astroport_spot_price_check (ctx : Ctx)
    (asset_a_pool_amount asset_b_pool_amount : Nat)
    (expected_spot_price_atomics : Nat) : Option Ctx :=
  if asset_a_pool_amount < 2 ^ 96 then
    if asset_b_pool_amount < 2 ^ 96 then
      let current_pool_price : ℚ :=
        if (asset_b_pool_amount : ℚ) = 0 then 0
        else (asset_a_pool_amount : ℚ) / (asset_b_pool_amount : ℚ)
      -- `Decimal::try_from_i128_with_scale(atomics.try_into()?, 18)`
      if expected_spot_price_atomics < 2 ^ 127 then
        if expected_spot_price_atomics < 2 ^ 96 then
          let expected_spot_price : ℚ := decimal_new expected_spot_price_atomics 18
          if current_pool_price * decimal_new 95 2 < 2 ^ 96 then
            if current_pool_price * decimal_new 105 2 < 2 ^ 96 then
              some (if current_pool_price * decimal_new 95 2 ≤ expected_spot_price ∧
                  expected_spot_price < current_pool_price * decimal_new 105 2 then
                ctx.valid_field "pool_price_config" "expected_spot_price"
                  "within 5% range of current pool price"
              else
                ctx.valid_field "pool_price_config" "expected_spot_price"
                  ("expected " ++ fmt4 expected_spot_price ++ " | current pool price " ++
                    fmt4 current_pool_price ++
                    " -> outside of 5% range of current pool price"))
            else none
          else none
        else none
      else none
    else none
  else none

def sp_spot_price_check (ctx : Ctx)
    (asset_a_pool_amount asset_b_pool_amount : Nat)
    (expected_spot_price_atomics : Nat) : Option Ctx :=
  if asset_a_pool_amount < 2 ^ 96 then
    if asset_b_pool_amount < 2 ^ 96 then
      let current_pool_price : ℚ :=
        if (asset_b_pool_amount : ℚ) = 0 then 0
        else (asset_a_pool_amount : ℚ) / (asset_b_pool_amount : ℚ)
      -- `Decimal::new(atomics.try_into()?, 18)`
      match i64_of_u128 expected_spot_price_atomics with
      | none => none
      | some atomics =>
        let expected_spot_price : ℚ := decimal_new atomics 18
        if current_pool_price * decimal_new 95 2 < 2 ^ 96 then
          if current_pool_price * decimal_new 105 2 < 2 ^ 96 then
            some (if current_pool_price * decimal_new 95 2 ≤ expected_spot_price ∧
                expected_spot_price < current_pool_price * decimal_new 105 2 then
              ctx.valid_field "pool_price_config" "expected_spot_price"
                "within 5% range of current pool price"
            else
              ctx.valid_field "pool_price_config" "expected_spot_price"
                ("expected_spot_price: " ++ fmt4 expected_spot_price ++
                  " | current_pool_price: " ++ fmt4 current_pool_price ++
                  "\noutside of 5% range of current pool price"))
          else none
        else none
    else none
  else none

/-- String suffix test (over the character lists). -/
def str_ends_with (s suffix : String) : Bool :=
  suffix.data.isSuffixOf s.data

/-! ## Two-party splits check (`src/validations/two_party_pol_covenant.rs`,
lines 151-194)

`msg.splits` is a `BTreeMap<String, SplitConfig>`; we embed it as the list of
its entries in ascending-key (iteration) order, each `SplitConfig.receivers`
a `BTreeMap<String, Decimal>` embedded the same way with weights as `10^18`
atomics.  The `cosmwasm_std::Decimal` receiver-weight sum panics as soon as a
partial `Uint128` sum overflows; since the weights are non-negative, that
happens iff the total reaches `2^128`, so each sum — evaluated lazily by the
source's short-circuit `&&` chain — is guarded by `2^128` (`none` = panic)
at exactly the point the chain reaches it. -/

structure SplitConfig where
  receivers : List (String × Nat)

/-- `receivers.contains_key(k)`. -/
def receivers_contains (receivers : List (String × Nat)) (k : String) : Bool :=
  receivers.any (fun r => r.1 == k)

/-- `receivers[k]` (only evaluated behind a `contains_key` guard in the
source; absent keys default to `0` here). -/
def receivers_get (receivers : List (String × Nat)) (k : String) : Nat :=
  ((receivers.find? (fun r => r.1 == k)).map (fun r => r.2)).getD 0

/-- `receivers.iter().map(|r| r.1).sum::<Decimal>()` in atomics. -/
def receivers_sum (receivers : List (String × Nat)) : Nat :=
  (receivers.map (fun r => r.2)).sum

def splits_check (ctx : Ctx) (splits : List (String × SplitConfig))
    (party_a_denom party_a_receiver party_b_denom party_b_receiver : String) :
    Option Ctx :=
  match splits with
  | [(denom_1, cfg_1), (denom_2, cfg_2)] =>
    if (denom_1 = party_a_denom ∧ denom_2 = party_b_denom) ∨
        (denom_2 = party_a_denom ∧ denom_1 = party_b_denom) then
      -- short-circuit `&&` chain: the first sum is only evaluated (and can
      -- only panic) after the three leading conjuncts hold, the second sum
      -- only after the next four
      if receivers_contains cfg_1.receivers party_a_receiver ∧
          receivers_contains cfg_1.receivers party_b_receiver ∧
          receivers_get cfg_1.receivers party_a_receiver = 10 ^ 18 then
        if receivers_sum cfg_1.receivers < 2 ^ 128 then
          if receivers_sum cfg_1.receivers = 10 ^ 18 ∧
              receivers_contains cfg_2.receivers party_a_receiver ∧
              receivers_contains cfg_2.receivers party_b_receiver ∧
              receivers_get cfg_2.receivers party_b_receiver = 10 ^ 18 then
            if receivers_sum cfg_2.receivers < 2 ^ 128 then
              some (if receivers_sum cfg_2.receivers = 10 ^ 18 then
                ctx.valid_field "splits" "" "verified"
              else
                ctx.invalid_field "splits" ""
                  "invalid splits: sum of splits should be 1.0")
            else none
          else
            some (ctx.invalid_field "splits" ""
              "invalid splits: sum of splits should be 1.0")
        else none
      else
        some (ctx.invalid_field "splits" ""
          "invalid splits: sum of splits should be 1.0")
    else
      some (ctx.invalid_field "splits" "" "invalid splits: unexpected denoms")
  | _ => some (ctx.invalid_field "splits" "" "invalid splits: unexpected denoms")

/-- The splits rule as the claim states it (spec §4.5): exactly the two
parties' denoms as keys (either order) and, per denom, receiver maps naming
exactly the two parties' receivers with weights summing to `1.0`. -/
def splits_claim_pass (splits : List (String × SplitConfig))
    (party_a_denom party_a_receiver party_b_denom party_b_receiver : String) : Bool :=
  match splits with
  | [(denom_1, cfg_1), (denom_2, cfg_2)] =>
    ((denom_1 == party_a_denom && denom_2 == party_b_denom) ||
      (denom_2 == party_a_denom && denom_1 == party_b_denom)) &&
    (List.all [cfg_1, cfg_2] (fun cfg =>
      receivers_contains cfg.receivers party_a_receiver &&
      receivers_contains cfg.receivers party_b_receiver &&
      cfg.receivers.all (fun r => r.1 == party_a_receiver || r.1 == party_b_receiver) &&
      receivers_sum cfg.receivers == 10 ^ 18))
  | _ => false

/-! ## IBC path model and the bilateral path/channel resolvers
(`src/utils/path.rs`, lines 10-44; `src/validations/two_party_pol_covenant.rs`,
lines 525-570; `src/validations/single_party_pol_covenant.rs`, lines 115-174)

The chain-registry path file stores one entry per unordered chain pair;
`get_path_info` normalises the lookup by ordering the two chain names
lexicographically, so the hub may land on either side of the stored entry.
The resolvers below walk `channels` and pick the first entry matching a port
predicate; the terminal `.next().unwrap()` panic (no matching channel) is
embedded as `none`. -/

def NEUTRON_CHAIN_NAME : String := "neutron"

def TRANSFER_PORT_ID : String := "transfer"

structure ChannelPort where
  channel_id : String
  port_id : String

structure Tags where
  dex : String
  preferred : Bool
  properties : String
  status : String

structure ChannelInfo where
  chain_1 : ChannelPort
  chain_2 : ChannelPort
  ordering : String
  version : String
  tags : Tags

structure ChainInfo where
  chain_name : String
  client_id : String
  connection_id : String

structure IBCPath where
  chain_1 : ChainInfo
  chain_2 : ChainInfo
  channels : List ChannelInfo

/-- Rust `str::starts_with`. -/
def starts_with (s pre : String) : Bool := pre.data.isPrefixOf s.data

/-- `get_path_connection_and_channels`
(`two_party_pol_covenant.rs`, lines 525-570). -/
def get_path_connection_and_channels (path_info : IBCPath)
    (channel_uses_wasm_port : Bool) : Option (String × String × String) :=
  if path_info.chain_1.chain_name == NEUTRON_CHAIN_NAME then
    (path_info.channels.filterMap (fun c =>
      if c.chain_1.port_id == TRANSFER_PORT_ID &&
          ((channel_uses_wasm_port && starts_with c.chain_2.port_id "wasm.") ||
            (!channel_uses_wasm_port && c.chain_2.port_id == TRANSFER_PORT_ID)) then
        some (path_info.chain_1.connection_id, c.chain_1.channel_id, c.chain_2.channel_id)
      else none)).head?
  else
    (path_info.channels.filterMap (fun c =>
      if c.chain_2.port_id == TRANSFER_PORT_ID &&
          ((channel_uses_wasm_port && starts_with c.chain_1.port_id "wasm.") ||
            c.chain_1.port_id == TRANSFER_PORT_ID) then
        some (path_info.chain_2.connection_id, c.chain_2.channel_id, c.chain_1.channel_id)
      else none)).head?

/-- The inline covenant-party path resolution of the single-party validator
(`single_party_pol_covenant.rs`, lines 115-174): the two channel ids are
selected independently, each by its own side's port being `"transfer"`. -/
def sp_party_path_resolution (path_info : IBCPath) : Option (String × String × String) :=
  if path_info.chain_1.chain_name == NEUTRON_CHAIN_NAME then
    match (path_info.channels.filterMap (fun c =>
        if c.chain_1.port_id == TRANSFER_PORT_ID then some c.chain_1.channel_id
        else none)).head?,
      (path_info.channels.filterMap (fun c =>
        if c.chain_2.port_id == TRANSFER_PORT_ID then some c.chain_2.channel_id
        else none)).head? with
    | some h2p, some p2h => some (path_info.chain_1.connection_id, h2p, p2h)
    | _, _ => none
  else
    match (path_info.channels.filterMap (fun c =>
        if c.chain_2.port_id == TRANSFER_PORT_ID then some c.chain_2.channel_id
        else none)).head?,
      (path_info.channels.filterMap (fun c =>
        if c.chain_1.port_id == TRANSFER_PORT_ID then some c.chain_1.channel_id
        else none)).head? with
    | some h2p, some p2h => some (path_info.chain_2.connection_id, h2p, p2h)
    | _, _ => none

/-- The resolution algorithm as the spec states it (§4.2, claim C4): the
first channel entry whose hub-side port is exactly `"transfer"` and whose
counterpart-side port is exactly `"transfer"` (flag unset) or starts with
`"wasm."` (flag set); the connection id and both channel ids come from the
hub side of the path and the two sides of that single entry. -/
def resolve_channels_spec (path_info : IBCPath) (flag : Bool) :
    Option (String × String × String) :=
  let hubIsChain1 := path_info.chain_1.chain_name == NEUTRON_CHAIN_NAME
  (path_info.channels.filterMap (fun c =>
    let hub := if hubIsChain1 then c.chain_1 else c.chain_2
    let counterpart := if hubIsChain1 then c.chain_2 else c.chain_1
    if hub.port_id == TRANSFER_PORT_ID &&
        (if flag then starts_with counterpart.port_id "wasm."
          else counterpart.port_id == TRANSFER_PORT_ID) then
      some ((if hubIsChain1 then path_info.chain_1 else path_info.chain_2).connection_id,
        hub.channel_id, counterpart.channel_id)
    else none)).head?

/-- Swapping the two stored sides of a path (the same unordered chain pair
stored with the hub on the other side). -/
def mirrorChannel (c : ChannelInfo) : ChannelInfo :=
  { c with chain_1 := c.chain_2, chain_2 := c.chain_1 }

def mirrorPath (p : IBCPath) : IBCPath :=
  { chain_1 := p.chain_2, chain_2 := p.chain_1,
    channels := p.channels.map mirrorChannel }

/-! ## ICS-20 voucher denom derivation

`src/validations/two_party_pol_covenant.rs`, lines 406-428 (and the identical
constructions at `single_party_pol_covenant.rs`, lines 228-250 and 373-391):
`expected_native_denom = format!("ibc/{}",
base16ct::upper::encode_string(Sha256::digest(format!("transfer/{}/{}",
channel_id, base_denom))))`, compared by `verify_equals!` against the
configured denom.  The `sha2` crate's `Sha256` is embedded below from the
FIPS 180-4 standard it implements, over UTF-8 bytes. -/

def shaK : List Nat := [
  1116352408, 1899447441, 3049323471, 3921009573, 961987163, 1508970993,
  2453635748, 2870763221, 3624381080, 310598401, 607225278, 1426881987,
  1925078388, 2162078206, 2614888103, 3248222580, 3835390401, 4022224774,
  264347078, 604807628, 770255983, 1249150122, 1555081692, 1996064986,
  2554220882, 2821834349, 2952996808, 3210313671, 3336571891, 3584528711,
  113926993, 338241895, 666307205, 773529912, 1294757372, 1396182291,
  1695183700, 1986661051, 2177026350, 2456956037, 2730485921, 2820302411,
  3259730800, 3345764771, 3516065817, 3600352804, 4094571909, 275423344,
  430227734, 506948616, 659060556, 883997877, 958139571, 1322822218,
  1537002063, 1747873779, 1955562222, 2024104815, 2227730452, 2361852424,
  2428436474, 2756734187, 3204031479, 3329325298]

def shaH0 : List Nat := [
  1779033703, 3144134277, 1013904242, 2773480762,
  1359893119, 2600822924, 528734635, 1541459225]

def u32 (x : Nat) : Nat := x % 4294967296

def rotr32 (n x : Nat) : Nat := u32 ((x >>> n) ||| (x <<< (32 - n)))

def capSigma0 (x : Nat) : Nat := rotr32 2 x ^^^ rotr32 13 x ^^^ rotr32 22 x

def capSigma1 (x : Nat) : Nat := rotr32 6 x ^^^ rotr32 11 x ^^^ rotr32 25 x

def smallSigma0 (x : Nat) : Nat := rotr32 7 x ^^^ rotr32 18 x ^^^ (x >>> 3)

def smallSigma1 (x : Nat) : Nat := rotr32 17 x ^^^ rotr32 19 x ^^^ (x >>> 10)

def chF (x y z : Nat) : Nat := (x &&& y) ^^^ ((x ^^^ 0xFFFFFFFF) &&& z)

def majF (x y z : Nat) : Nat := (x &&& y) ^^^ (x &&& z) ^^^ (y &&& z)

/-- FIPS 180-4 padding: `0x80`, zeros to 56 mod 64, 64-bit big-endian bit
length. -/
def padMessage (msg : List Nat) : List Nat :=
  let len := msg.length
  let zeros := (119 - len % 64) % 64
  msg ++ [0x80] ++ List.replicate zeros 0 ++
    (List.range 8).map (fun i => (8 * len) >>> (8 * (7 - i)) &&& 0xFF)

/-- A 64-byte block as 16 big-endian 32-bit words. -/
def blockWords (block : List Nat) : List Nat :=
  (List.range 16).map (fun i =>
    (block.getD (4 * i) 0) <<< 24 ||| (block.getD (4 * i + 1) 0) <<< 16 |||
      (block.getD (4 * i + 2) 0) <<< 8 ||| block.getD (4 * i + 3) 0)

/-- Extend 16 words to the 64-word message schedule. -/
def msgSchedule (w16 : List Nat) : List Nat :=
  (List.range 48).foldl
    (fun w _ =>
      w ++ [u32 (smallSigma1 (w.getD (w.length - 2) 0) + w.getD (w.length - 7) 0 +
        smallSigma0 (w.getD (w.length - 15) 0) + w.getD (w.length - 16) 0)])
    w16

def shaRound (regs : List Nat) (k w : Nat) : List Nat :=
  let a := regs.getD 0 0
  let b := regs.getD 1 0
  let c := regs.getD 2 0
  let d := regs.getD 3 0
  let e := regs.getD 4 0
  let f := regs.getD 5 0
  let g := regs.getD 6 0
  let h := regs.getD 7 0
  let t1 := u32 (h + capSigma1 e + chF e f g + k + w)
  let t2 := u32 (capSigma0 a + majF a b c)
  [u32 (t1 + t2), a, b, c, u32 (d + t1), e, f, g]

def compress (h : List Nat) (block : List Nat) : List Nat :=
  let w := msgSchedule (blockWords block)
  let final := (List.range 64).foldl
    (fun regs i => shaRound regs (shaK.getD i 0) (w.getD i 0)) h
  List.zipWith (fun x y => u32 (x + y)) h final

/-- SHA-256 of a byte list, as the 32 digest bytes. -/
def sha256 (msg : List Nat) : List Nat :=
  let padded := padMessage msg
  let digest := (List.range (padded.length / 64)).foldl
    (fun h i => compress h ((padded.drop (64 * i)).take 64)) shaH0
  digest.flatMap (fun w => [w >>> 24 &&& 0xFF, w >>> 16 &&& 0xFF, w >>> 8 &&& 0xFF, w &&& 0xFF])

def hexDigitUpper (n : Nat) : Char := "0123456789ABCDEF".data.getD n '0'

/-- `base16ct::upper::encode_string`. -/
def bytesToHexUpper (bs : List Nat) : String :=
  ⟨bs.flatMap (fun b => [hexDigitUpper (b / 16), hexDigitUpper (b % 16)])⟩

/-- UTF-8 encoding of one scalar value (Rust `str::as_bytes` per char). -/
def utf8EncodeNat (c : Char) : List Nat :=
  let n := c.toNat
  if n < 0x80 then [n]
  else if n < 0x800 then [0xC0 ||| (n >>> 6), 0x80 ||| (n &&& 0x3F)]
  else if n < 0x10000 then
    [0xE0 ||| (n >>> 12), 0x80 ||| ((n >>> 6) &&& 0x3F), 0x80 ||| (n &&& 0x3F)]
  else
    [0xF0 ||| (n >>> 18), 0x80 ||| ((n >>> 12) &&& 0x3F), 0x80 ||| ((n >>> 6) &&& 0x3F),
      0x80 ||| (n &&& 0x3F)]

def strBytes (s : String) : List Nat := s.data.flatMap utf8EncodeNat

/-- The spec's `deriveVoucherDenom(channelId, baseDenom)`:
`"ibc/" + uppercaseHex(SHA256("transfer/" + channelId + "/" + baseDenom))`. -/
def derive_voucher_denom (channel_id base_denom : String) : String :=
  "ibc/" ++ bytesToHexUpper (sha256 (strBytes ("transfer/" ++ channel_id ++ "/" ++ base_denom)))

/-- The `native_denom` verification step
(`two_party_pol_covenant.rs`, lines 406-428): the expected voucher denom is
derived from the configured host(Neutron)-to-party channel id — the channel
id on the receiving side of the hop — and the resolved party base denom, then
compared exactly against the configured `native_denom`. -/
def verify_native_denom (ctx : Ctx) (key : String)
    (host_to_party_chain_channel_id party_base_denom native_denom : String) : Ctx :=
  let expected_native_denom :=
    "ibc/" ++ bytesToHexUpper (sha256 (strBytes
      ("transfer/" ++ host_to_party_chain_channel_id ++ "/" ++ party_base_denom)))
  verify_equals ctx key "native_denom" expected_native_denom native_denom
    (fun expected actual => "invalid denom: expected " ++ expected ++ " | actual " ++ actual)

/-! ## Concrete registry entries and messages used to separate behaviours -/

def plainTags : Tags := ⟨"", false, "", "live"⟩

/-- A stored neutron/osmosis path whose channel list holds a
transfer/transfer entry before a transfer/`wasm.`-port entry. -/
def pathWithTransferBeforeWasm : IBCPath :=
  { chain_1 := ⟨"neutron", "07-tendermint-0", "connection-0"⟩,
    chain_2 := ⟨"osmosis", "07-tendermint-1", "connection-1"⟩,
    channels := [
      ⟨⟨"channel-0", "transfer"⟩, ⟨"channel-10", "transfer"⟩, "unordered", "ics20-1", plainTags⟩,
      ⟨⟨"channel-1", "transfer"⟩, ⟨"channel-11", "wasm.neutron1contract"⟩, "unordered", "ics20-1",
        plainTags⟩] }

/-- A stored neutron/osmosis path whose first hub-side transfer channel has a
`wasm.` counterpart port and whose transfer/transfer entry comes second. -/
def pathWithWasmBeforeTransfer : IBCPath :=
  { chain_1 := ⟨"neutron", "07-tendermint-0", "connection-0"⟩,
    chain_2 := ⟨"osmosis", "07-tendermint-1", "connection-1"⟩,
    channels := [
      ⟨⟨"channel-0", "transfer"⟩, ⟨"channel-10", "wasm.neutron1contract"⟩, "unordered", "ics20-1",
        plainTags⟩,
      ⟨⟨"channel-1", "transfer"⟩, ⟨"channel-11", "transfer"⟩, "unordered", "ics20-1",
        plainTags⟩] }

/-- A splits map giving each party a `0.5` weight of each denom: the split
receivers sum to `1.0` per denom and name exactly the two parties. -/
def evenSplits : List (String × SplitConfig) :=
  [("uatom", ⟨[("neutron1partya", 500000000000000000), ("neutron1partyb", 500000000000000000)]⟩),
   ("uosmo", ⟨[("neutron1partya", 500000000000000000), ("neutron1partyb", 500000000000000000)]⟩)]

/-! ## Helper lemmas about the accumulator -/

@[simp]
lemma Ctx.errors_valid (ctx : Ctx) (k m : String) : (ctx.valid k m).errors = ctx.errors := rfl

@[simp]
lemma Ctx.checks_invalid (ctx : Ctx) (k m : String) : (ctx.invalid k m).checks = ctx.checks := rfl

@[simp]
lemma Ctx.checks_valid_app (ctx : Ctx) (k m k' : String) :
    (ctx.valid k m).checks k' = if k' = k then ctx.checks k' ++ [m] else ctx.checks k' := rfl

@[simp]
lemma Ctx.errors_invalid_app (ctx : Ctx) (k m k' : String) :
    (ctx.invalid k m).errors k' = if k' = k then ctx.errors k' ++ [m] else ctx.errors k' := rfl

@[simp]
lemma Ctx.errors_valid_field (ctx : Ctx) (k f m : String) :
    (ctx.valid_field k f m).errors = ctx.errors := rfl

@[simp]
lemma Ctx.checks_invalid_field (ctx : Ctx) (k f m : String) :
    (ctx.invalid_field k f m).checks = ctx.checks := rfl

@[simp]
lemma Ctx.checks_valid_field_app (ctx : Ctx) (k f m k' : String) :
    (ctx.valid_field k f m).checks k' =
      if k' = k then ctx.checks k' ++ [f ++ ": " ++ m] else ctx.checks k' := rfl

@[simp]
lemma Ctx.errors_invalid_field_app (ctx : Ctx) (k f m k' : String) :
    (ctx.invalid_field k f m).errors k' =
      if k' = k then ctx.errors k' ++ [f ++ ": " ++ m] else ctx.errors k' := rfl

/-- `verify_expiration` never records the lockup-ordering error message: its
appended error strings are the field name followed by one of the two
future-ness messages. -/
lemma errors_count_verify_expiration (ctx : Ctx) (field : String) (d : Expiration)
    (cb now : Nat) (msg : String)
    (h1 : ¬ field ++ ": " ++ "invalid block height: should be in the future" = msg)
    (h2 : ¬ field ++ ": " ++ "invalid timestamp: should be in the future" = msg) :
    ((verify_expiration ctx "covenant" field d cb now).errors "covenant").count msg =
      ((ctx.errors "covenant").count msg) := by
  cases d <;>
    simp only [verify_expiration, Ctx.valid_field, Ctx.invalid_field] <;>
    first
      | (split_ifs <;> simp [List.count_append, List.count_singleton', h1, h2])
      | simp [List.count_append]

/-- Two `10^18`-scaled atomics sum to the decimal one exactly when the
atomics sum to `10^18`. -/
lemma decimal_atomics_sum_one (a b : Nat) :
    (decimal_new (a : Int) 18 + decimal_new (b : Int) 18 = 1) ↔ a + b = 10 ^ 18 := by
  unfold decimal_new
  rw [div_add_div_same, div_eq_one_iff_eq (by norm_num)]
  constructor
  · intro h; exact_mod_cast h
  · intro h; exact_mod_cast h

/-- The source's single-side limit expression equals the spec's
`round_away_from_zero(contribution - contribution * limitPct / 100, 0)`. -/
lemma round_sub_pct_formula (c : ℚ) (pct : Nat) :
    round_dp0_away_from_zero (c - c * decimal_new pct 2) = singleSideLpLimit c pct := by
  unfold singleSideLpLimit decimal_new
  norm_num [mul_div_assoc]

/-- The band condition as computed by the source (division guarded by
`unwrap_or_default`, `Decimal::new(95, 2)`-style constants) coincides with
the spec's `[current * 0.95, current * 1.05)` condition when the pool's
second reserve is non-zero. -/
lemma band_cond_iff (a b eAtom : Nat) (hb : 0 < b) :
    ((if (b : ℚ) = 0 then 0 else (a : ℚ) / (b : ℚ)) * decimal_new 95 2 ≤
        decimal_new (eAtom : Int) 18 ∧
      decimal_new (eAtom : Int) 18 <
        (if (b : ℚ) = 0 then 0 else (a : ℚ) / (b : ℚ)) * decimal_new 105 2) ↔
    ((a : ℚ) / (b : ℚ) * (95 / 100) ≤ (eAtom : ℚ) / 10 ^ 18 ∧
      (eAtom : ℚ) / 10 ^ 18 < (a : ℚ) / (b : ℚ) * (105 / 100)) := by
  have hbne : ((b : ℚ)) ≠ 0 := Nat.cast_ne_zero.mpr hb.ne'
  rw [if_neg hbne]
  unfold decimal_new
  push_cast
  norm_num

/-- Rust's `filter_map(..).next()` over an `if`-shaped closure is
`find?`-then-project. -/
lemma head_filterMap_ite {α β : Type} (l : List α) (p : α → Bool) (f : α → β) :
    (l.filterMap (fun a => if p a then some (f a) else none)).head? =
      (l.find? p).map f := by
  induction l with
  | nil => rfl
  | cons x xs ih =>
      by_cases h : p x <;> simp [List.filterMap_cons, List.find?_cons, h, ih]

/-- In a receiver map whose weights sum to exactly `1.0` while one receiver
already holds weight `1.0`, every other present receiver holds weight `0`
(weights are unsigned fixed-point values). -/
lemma receivers_get_eq_zero_of_other_full (l : List (String × Nat)) (ra rb : String)
    (hne : ra ≠ rb) (hcont : receivers_contains l rb = true)
    (hga : receivers_get l ra = 10 ^ 18) (hsum : receivers_sum l = 10 ^ 18) :
    receivers_get l rb = 0 := by
  rcases hfa : l.find? (fun r => r.1 == ra) with _ | e1
  · simp [receivers_get, hfa] at hga
  · have he1mem : e1 ∈ l := List.mem_of_find?_eq_some hfa
    have he1key : e1.1 = ra := by
      have := List.find?_some hfa
      simpa using this
    have he1val : e1.2 = 10 ^ 18 := by
      simpa [receivers_get, hfa] using hga
    have hsome : (l.find? (fun r => r.1 == rb)).isSome := by
      rw [List.find?_isSome]
      simpa [receivers_contains, List.any_eq_true] using hcont
    rcases hfb : l.find? (fun r => r.1 == rb) with _ | e2
    · rw [hfb] at hsome; simp at hsome
    · have he2mem : e2 ∈ l := List.mem_of_find?_eq_some hfb
      have he2key : e2.1 = rb := by
        have := List.find?_some hfb
        simpa using this
      have hne12 : e2 ≠ e1 := by
        intro h
        exact hne (by rw [← he1key, ← he2key, h])
      obtain ⟨l2, hperm⟩ : ∃ l2, l.Perm (e1 :: l2) := ⟨_, List.perm_cons_erase he1mem⟩
      have hsum' : (l.map (fun r => r.2)).sum = e1.2 + (l2.map (fun r => r.2)).sum := by
        have := (hperm.map (fun r => r.2)).sum_eq
        simpa using this
      have he2mem' : e2 ∈ l2 := by
        have h := hperm.mem_iff.mp he2mem
        rcases List.mem_cons.mp h with h | h
        · exact absurd h hne12
        · exact h
      have hle : e2.2 ≤ (l2.map (fun r => r.2)).sum :=
        List.single_le_sum (fun x _ => Nat.zero_le x) _
          (List.mem_map_of_mem (fun r => r.2) he2mem')
      have : e2.2 = 0 := by
        have hs : receivers_sum l = e1.2 + (l2.map (fun r => r.2)).sum := hsum'
        rw [hsum] at hs
        omega
      simp [receivers_get, hfb, this]

/-! ## Theorems -/

/-- **C9** (counterexample): the swap-covenant validator, run on a message
with a non-empty label, records no label validation result at all — the
checks and errors maps both stay empty, contradicting the claim that an
error (empty label) or a passing check (non-empty label) is always
recorded. -/
theorem swap_validate_no_label_record :
    (swap_validate ⟨"covenant-swap"⟩ Ctx.empty).map (fun c => c.checks "covenant") = some [] ∧
    (swap_validate ⟨"covenant-swap"⟩ Ctx.empty).map (fun c => c.errors "covenant") = some [] :=
  ⟨rfl, rfl⟩

/-- **C9** (amended): the swap-covenant validator performs no checks
whatsoever — it adds no entry (not even a label record) to the checks or
errors maps and always returns success. -/
theorem swap_validate_is_noop :
    ∀ (msg : SwapCovenantInstMsg) (ctx : Ctx), swap_validate msg ctx = some ctx :=
  fun _ _ => rfl

/-- **C10**: for each of the four fields handled by `required_or_ignored!`
in the LP-forwarder and LS-forwarder blocks, an error `required` is recorded
iff the field's string is empty, a passing check `ignored` is recorded
otherwise, and the recorded outcome depends only on the emptiness of the
four fields — never on their contents (no further validation). -/
theorem forwarder_required_or_ignored_spec :
    (∀ (ctx : Ctx) (key field v : String),
      (v = "" → required_or_ignored ctx key field v = ctx.invalid_field key field "required") ∧
      (v ≠ "" → required_or_ignored ctx key field v = ctx.valid_field key field "ignored")) ∧
    (∀ (ctx : Ctx) (key : String) (cfg cfg' : InterchainCovenantParty),
      (cfg.party_receiver_addr = "" ↔ cfg'.party_receiver_addr = "") →
      (cfg.addr = "" ↔ cfg'.addr = "") →
      (cfg.host_to_party_chain_channel_id = "" ↔ cfg'.host_to_party_chain_channel_id = "") →
      (cfg.native_denom = "" ↔ cfg'.native_denom = "") →
      forwarder_required_or_ignored ctx key cfg = forwarder_required_or_ignored ctx key cfg') ∧
    (∀ (key : String) (cfg : InterchainCovenantParty),
      (forwarder_required_or_ignored Ctx.empty key cfg).errors key =
        (([("party_receiver_addr", cfg.party_receiver_addr), ("addr", cfg.addr),
            ("host_to_party_chain_channel_id", cfg.host_to_party_chain_channel_id),
            ("native_denom", cfg.native_denom)].filter (fun p => p.2 == "")).map
          (fun p => p.1 ++ ": " ++ "required")) ∧
      (forwarder_required_or_ignored Ctx.empty key cfg).checks key =
        (([("party_receiver_addr", cfg.party_receiver_addr), ("addr", cfg.addr),
            ("host_to_party_chain_channel_id", cfg.host_to_party_chain_channel_id),
            ("native_denom", cfg.native_denom)].filter (fun p => !(p.2 == ""))).map
          (fun p => p.1 ++ ": " ++ "ignored"))) := by
  refine ⟨fun ctx key field v => ⟨fun h => ?_, fun h => ?_⟩, fun ctx key cfg cfg' h1 h2 h3 h4 => ?_,
    fun key cfg => ?_⟩
  · simp [required_or_ignored, h]
  · simp [required_or_ignored, h]
  · simp only [forwarder_required_or_ignored, required_or_ignored, h1, h2, h3, h4]
  · unfold forwarder_required_or_ignored required_or_ignored
    by_cases hp : cfg.party_receiver_addr = "" <;>
      by_cases ha : cfg.addr = "" <;>
      by_cases hh : cfg.host_to_party_chain_channel_id = "" <;>
      by_cases hn : cfg.native_denom = "" <;>
      simp [hp, ha, hh, hn, Ctx.empty, Ctx.valid_field, Ctx.invalid_field, Ctx.valid, Ctx.invalid]

/-- **C10** (witness): the general statement applied at concrete field
values. -/
theorem forwarder_required_or_ignored_spec_witness :
    required_or_ignored Ctx.empty "lp_forwarder_config" "party_receiver_addr" "" =
      Ctx.empty.invalid_field "lp_forwarder_config" "party_receiver_addr" "required" ∧
    required_or_ignored Ctx.empty "lp_forwarder_config" "addr" "neutron1abc" =
      Ctx.empty.valid_field "lp_forwarder_config" "addr" "ignored" ∧
    forwarder_required_or_ignored Ctx.empty "ls_forwarder_config"
        ⟨"", "neutron1abc", "channel-1", ""⟩ =
      forwarder_required_or_ignored Ctx.empty "ls_forwarder_config"
        ⟨"", "neutron1xyz", "channel-99", ""⟩ :=
  ⟨(forwarder_required_or_ignored_spec.1 Ctx.empty "lp_forwarder_config"
      "party_receiver_addr" "").1 rfl,
    (forwarder_required_or_ignored_spec.1 Ctx.empty "lp_forwarder_config"
      "addr" "neutron1abc").2 (by decide),
    forwarder_required_or_ignored_spec.2.1 Ctx.empty "ls_forwarder_config"
      ⟨"", "neutron1abc", "channel-1", ""⟩ ⟨"", "neutron1xyz", "channel-99", ""⟩
      (by decide) (by decide) (by decide) (by decide)⟩

/-- **C8**: the two-party validator records the lockup-ordering error
(`lockup_config: invalid lockup config: should be later than deposit
deadline`) exactly when the lockup expiration is not strictly later than the
deposit-deadline expiration under the derived `Expiration` order — the
ordering check runs after, and independently of, the two future-ness checks,
whose records it never suppresses. -/
theorem lockup_after_deposit_deadline :
    ∀ (ctx : Ctx) (deposit lockup : Expiration) (curBlock nowSecs : Nat),
    (deposit_and_lockup_checks ctx deposit lockup curBlock nowSecs =
      (let mid := verify_expiration
        (verify_expiration ctx "covenant" "deposit_deadline" deposit curBlock nowSecs)
        "covenant" "lockup_config" lockup curBlock nowSecs
      if lockup.leb deposit then
        mid.invalid_field "covenant" "lockup_config"
          "invalid lockup config: should be later than deposit deadline"
      else mid)) ∧
    (lockup.leb deposit = !(deposit.ltb lockup)) ∧
    (((deposit_and_lockup_checks ctx deposit lockup curBlock nowSecs).errors "covenant").count
        "lockup_config: invalid lockup config: should be later than deposit deadline" =
      ((ctx.errors "covenant").count
        "lockup_config: invalid lockup config: should be later than deposit deadline" +
        if lockup.leb deposit then 1 else 0)) := by
  intro ctx deposit lockup curBlock nowSecs
  refine ⟨rfl, ?_, ?_⟩
  · cases deposit <;> cases lockup <;>
      simp only [Expiration.leb, Expiration.ltb, ← decide_not, decide_eq_decide,
        Bool.not_false, Bool.not_true, decide_eq_true_eq] <;>
      omega
  · have hd := errors_count_verify_expiration ctx "deposit_deadline" deposit curBlock nowSecs
      "lockup_config: invalid lockup config: should be later than deposit deadline"
      (by decide) (by decide)
    have hl := errors_count_verify_expiration
      (verify_expiration ctx "covenant" "deposit_deadline" deposit curBlock nowSecs)
      "lockup_config" lockup curBlock nowSecs
      "lockup_config: invalid lockup config: should be later than deposit deadline"
      (by decide) (by decide)
    simp only [] at hd hl
    unfold deposit_and_lockup_checks
    split_ifs with h <;>
      simp [Ctx.invalid_field, List.count_append, List.count_singleton', hl, hd, h]

/-- **C2**: in both validators the share-sum check passes iff the
`10^18`-scaled shares sum to exactly `1.0` — no epsilon tolerance: the
two-party check records the two passing share records iff the atomics sum to
`10^18` (and the duplicated `party_b_share` error otherwise); the
single-party check records `ls_share + native_share: verified` iff the
atomics sum to `10^18`; `0.35 + 0.65` passes while
`0.35 + 0.649999999999999999` is recorded as an error. -/
theorem share_sum_exact :
    (∀ (ctx : Ctx) (a b : Nat), a + b < 2 ^ 128 →
      (((two_party_share_checks ctx a b).map (fun c => c.checks "covenant") =
          some (ctx.checks "covenant" ++
            ["party_a_share: verified", "party_b_share: verified"])) ↔
        a + b = 10 ^ 18) ∧
      (((two_party_share_checks ctx a b).map (fun c => c.errors "covenant") =
          some (ctx.errors "covenant" ++
            ["party_b_share: invalid share: sum of shares should be 1.0",
              "party_b_share: invalid share: sum of shares should be 1.0"])) ↔
        ¬ a + b = 10 ^ 18)) ∧
    (∀ (ctx : Ctx) (a b : Nat),
      a ≤ 9223372036854775807 → b ≤ 9223372036854775807 →
      ((sp_share_range_and_sum_checks ctx a b).map
          (fun c => (c.checks "remote_chain_splitter_config").count
            "ls_share + native_share: verified") =
        some ((ctx.checks "remote_chain_splitter_config").count
            "ls_share + native_share: verified" +
          if a + b = 10 ^ 18 then 1 else 0)) ∧
      ((sp_share_range_and_sum_checks ctx a b).map
          (fun c => (c.errors "remote_chain_splitter_config").count
            "ls_share + native_share: invalid share: should sum up to 1") =
        some ((ctx.errors "remote_chain_splitter_config").count
            "ls_share + native_share: invalid share: should sum up to 1" +
          if a + b = 10 ^ 18 then 0 else 1))) ∧
    ((two_party_share_checks Ctx.empty 350000000000000000 650000000000000000).map
        (fun c => c.errors "covenant") = some []) ∧
    ((two_party_share_checks Ctx.empty 350000000000000000 649999999999999999).map
        (fun c => c.errors "covenant") =
      some ["party_b_share: invalid share: sum of shares should be 1.0",
        "party_b_share: invalid share: sum of shares should be 1.0"]) := by
  refine ⟨fun ctx a b h => ?_, fun ctx a b ha hb => ?_, by decide, by decide⟩
  · unfold two_party_share_checks uint128_add
    rw [if_pos h]
    by_cases hs : a + b = 1000000000000000000 <;>
      simp [hs, Ctx.valid_field, Ctx.invalid_field, List.self_eq_append_right,
        List.append_assoc]
  · have hq := decimal_atomics_sum_one a b
    unfold sp_share_range_and_sum_checks i64_of_u128
    rw [if_pos ha, if_pos hb]
    by_cases hs : a + b = 10 ^ 18 <;>
      split_ifs <;>
      simp_all [Ctx.valid_field, Ctx.invalid_field, List.count_append,
        List.count_singleton'] <;>
      (split_ifs <;>
        simp [List.count_append, List.count_singleton'])

/-- **C2** (witness): the general statement applied at the spec's example
shares `0.35` and `0.65`. -/
theorem share_sum_exact_witness :
    (two_party_share_checks Ctx.empty 350000000000000000 650000000000000000).map
        (fun c => c.checks "covenant") =
      some ["party_a_share: verified", "party_b_share: verified"] := by
  have h := (share_sum_exact.1 Ctx.empty 350000000000000000 650000000000000000
    (by norm_num)).1.mpr (by norm_num)
  simpa using h

/-- **C5**: the single-side LP limit check computes
`round_away_from_zero(contribution - contribution * pct / 100, 0 dp)` in
exact decimal arithmetic, records the configured limit as `verified` iff it
equals that value exactly, and on the spec's examples
`singleSideLpLimit(1000, 10) = 900` and `singleSideLpLimit(333, 10) = 300`.
The bounds `pct ≤ 100`, `contribution * 100 < 2^96` and `limit < 2^96` keep
the source inside its exact regime, off the `Decimal::from` panics and off
`checked_mul` mantissa rescaling. -/
theorem single_side_lp_limit_exact :
    (∀ (contribution : ℚ) (pct : Nat),
      round_dp0_away_from_zero (contribution - contribution * decimal_new pct 2) =
        singleSideLpLimit contribution pct) ∧
    (∀ (ctx : Ctx) (field : String) (contribution pct limit : Nat),
      pct ≤ 100 → contribution * 100 < 2 ^ 96 → limit < 2 ^ 96 →
      (((verify_single_side_lp_limit ctx field contribution pct limit).map
          (fun r => r.checks "liquid_pooler_config")) =
        some (ctx.checks "liquid_pooler_config" ++ [field ++ ": " ++ "verified"]) ↔
      (limit : ℚ) = singleSideLpLimit (contribution : ℚ) pct)) ∧
    singleSideLpLimit 1000 10 = 900 ∧
    singleSideLpLimit 333 10 = 300 := by
  refine ⟨round_sub_pct_formula, fun ctx field contribution pct limit hpct hc hlim => ?_,
    ?_, ?_⟩
  · have hc96 : contribution < 2 ^ 96 := by omega
    unfold verify_single_side_lp_limit
    rw [if_pos hc96, if_pos hlim]
    by_cases hL : (limit : ℚ) = singleSideLpLimit (contribution : ℚ) pct <;>
      simp [round_sub_pct_formula, hL, Ctx.valid_field, Ctx.invalid_field,
        List.self_eq_append_right]
  · unfold singleSideLpLimit round_dp0_away_from_zero
    norm_num
  · unfold singleSideLpLimit round_dp0_away_from_zero
    rw [if_pos (by norm_num)]
    have harg : ((333 : ℚ) - 333 * ((10 : Nat) : ℚ) / 100) = 2997 / 10 := by
      push_cast; norm_num
    rw [harg]
    have hceil : ⌈(2997 / 10 : ℚ)⌉ = 300 := by
      rw [Int.ceil_eq_iff] <;> norm_num
    rw [hceil]
    norm_num

/-- **C5** (witness): the general statement applied at the spec's example
`contribution = 1000`, `pct = 10`, configured limit `900`. -/
theorem single_side_lp_limit_exact_witness :
    (verify_single_side_lp_limit Ctx.empty "single_side_lp_limits_asset_a" 1000 10 900).map
        (fun r => r.checks "liquid_pooler_config") =
      some ["single_side_lp_limits_asset_a: verified"] := by
  have h900 : ((900 : ℕ) : ℚ) = singleSideLpLimit ((1000 : ℕ) : ℚ) 10 := by
    have h := single_side_lp_limit_exact.2.2.1
    push_cast
    exact h.symm
  have h := (single_side_lp_limit_exact.2.1 Ctx.empty "single_side_lp_limits_asset_a"
    1000 10 900 (by norm_num) (by norm_num) (by norm_num)).mpr h900
  simpa [Ctx.empty] using h

set_option maxRecDepth 8000 in
/-- **C6**: the `expected_spot_price` check always records a passing check
and never an error, in both the two-party and single-party validators: when
the configured price lies in `[current * 0.95, current * 1.05)` the recorded
message is the fixed `within 5% range of current pool price` text (no
warning), and otherwise the recorded message ends with the warning
`outside of 5% range of current pool price`.  The bounds (`b ∣ a` with
reserves below `2^96` and `(a/b) * 105 < 2^96`, spot-price atomics within
`i64`) keep the source off its `Decimal::from`/`checked_mul`/conversion
panics and make its 28-digit-rounded division exact. -/
theorem spot_price_band_always_passes :
    (∀ (ctx : Ctx) (a b eAtom : Nat),
      0 < b → b ∣ a → a < 2 ^ 96 → b < 2 ^ 96 → a / b * 105 < 2 ^ 96 →
      eAtom ≤ 9223372036854775807 →
      ((astroport_spot_price_check ctx a b eAtom).map (fun c => c.errors) = some ctx.errors) ∧
      ((sp_spot_price_check ctx a b eAtom).map (fun c => c.errors) = some ctx.errors) ∧
      (((a : ℚ) / (b : ℚ) * (95 / 100) ≤ (eAtom : ℚ) / 10 ^ 18 ∧
          (eAtom : ℚ) / 10 ^ 18 < (a : ℚ) / (b : ℚ) * (105 / 100)) →
        ((astroport_spot_price_check ctx a b eAtom).map
            (fun c => c.checks "pool_price_config") =
          some (ctx.checks "pool_price_config" ++
            ["expected_spot_price: within 5% range of current pool price"])) ∧
        ((sp_spot_price_check ctx a b eAtom).map (fun c => c.checks "pool_price_config") =
          some (ctx.checks "pool_price_config" ++
            ["expected_spot_price: within 5% range of current pool price"]))) ∧
      (¬((a : ℚ) / (b : ℚ) * (95 / 100) ≤ (eAtom : ℚ) / 10 ^ 18 ∧
          (eAtom : ℚ) / 10 ^ 18 < (a : ℚ) / (b : ℚ) * (105 / 100)) →
        ((astroport_spot_price_check ctx a b eAtom).map
            (fun c => c.checks "pool_price_config") =
          some (ctx.checks "pool_price_config" ++
            ["expected_spot_price: " ++ ("expected " ++ fmt4 ((eAtom : ℚ) / 10 ^ 18) ++
              " | current pool price " ++ fmt4 ((a : ℚ) / (b : ℚ)) ++
              " -> outside of 5% range of current pool price")])) ∧
        ((sp_spot_price_check ctx a b eAtom).map (fun c => c.checks "pool_price_config") =
          some (ctx.checks "pool_price_config" ++
            ["expected_spot_price: " ++ ("expected_spot_price: " ++
              fmt4 ((eAtom : ℚ) / 10 ^ 18) ++ " | current_pool_price: " ++
              fmt4 ((a : ℚ) / (b : ℚ)) ++
              "\noutside of 5% range of current pool price")])))) ∧
    (str_ends_with "expected_spot_price: within 5% range of current pool price"
      "outside of 5% range of current pool price" = false) ∧
    (∀ (prefixPart : String),
      str_ends_with (prefixPart ++ "outside of 5% range of current pool price")
        "outside of 5% range of current pool price" = true) := by
  refine ⟨fun ctx a b eAtom hb hdvd ha96 hb96 hq105 he => ?_, by decide, fun prefixPart => ?_⟩
  · have hbne : ((b : ℚ)) ≠ 0 := Nat.cast_ne_zero.mpr hb.ne'
    have h127 : eAtom < 2 ^ 127 := lt_of_le_of_lt he (by norm_num)
    have h96e : eAtom < 2 ^ 96 := lt_of_le_of_lt he (by norm_num)
    have hcast : decimal_new (eAtom : Int) 18 = (eAtom : ℚ) / 10 ^ 18 := by
      unfold decimal_new; push_cast; ring
    have h95 : decimal_new 95 2 = (95 / 100 : ℚ) := by unfold decimal_new; norm_num
    have h105 : decimal_new 105 2 = (105 / 100 : ℚ) := by unfold decimal_new; norm_num
    have hq : (a : ℚ) / (b : ℚ) = ((a / b : ℕ) : ℚ) := (Nat.cast_div hdvd hbne).symm
    have hqnn : (0 : ℚ) ≤ ((a / b : ℕ) : ℚ) := Nat.cast_nonneg _
    have hql : ((a / b : ℕ) : ℚ) * 105 < 2 ^ 96 := by exact_mod_cast hq105
    have g105 : (a : ℚ) / (b : ℚ) * (105 / 100 : ℚ) < 2 ^ 96 := by
      rw [hq]
      calc ((a / b : ℕ) : ℚ) * (105 / 100) = ((a / b : ℕ) : ℚ) * 105 / 100 := by ring
        _ ≤ ((a / b : ℕ) : ℚ) * 105 := div_le_self (by positivity) (by norm_num)
        _ < 2 ^ 96 := hql
    have g95 : (a : ℚ) / (b : ℚ) * (95 / 100 : ℚ) < 2 ^ 96 := by
      rw [hq]
      calc ((a / b : ℕ) : ℚ) * (95 / 100) = ((a / b : ℕ) : ℚ) * 95 / 100 := by ring
        _ ≤ ((a / b : ℕ) : ℚ) * 95 := div_le_self (by positivity) (by norm_num)
        _ ≤ ((a / b : ℕ) : ℚ) * 105 := mul_le_mul_of_nonneg_left (by norm_num) hqnn
        _ < 2 ^ 96 := hql
    norm_num only at ha96 hb96 h127 h96e
    unfold astroport_spot_price_check sp_spot_price_check i64_of_u128
    by_cases hband : ((a : ℚ) / (b : ℚ) * (95 / 100) ≤ (eAtom : ℚ) / 10 ^ 18 ∧
        (eAtom : ℚ) / 10 ^ 18 < (a : ℚ) / (b : ℚ) * (105 / 100)) <;>
      simp [ha96, hb96, h127, h96e, he, hbne, hcast, h95, h105, g95, g105, hband,
        Ctx.valid_field]
  · unfold str_ends_with
    simp [List.isSuffixOf]

/-- **C6** (witness): the general statement applied at pool reserves
`100/100` (current price `1`) and configured spot price `1.03`, inside the
band. -/
theorem spot_price_band_always_passes_witness :
    (astroport_spot_price_check Ctx.empty 100 100 1030000000000000000).map
        (fun c => c.checks "pool_price_config") =
      some ["expected_spot_price: within 5% range of current pool price"] ∧
    (sp_spot_price_check Ctx.empty 100 100 1030000000000000000).map
        (fun c => c.errors) = some Ctx.empty.errors := by
  have h := spot_price_band_always_passes.1 Ctx.empty 100 100 1030000000000000000
    (by norm_num) (by norm_num) (by norm_num) (by norm_num) (by norm_num) (by norm_num)
  have hband : ((100 : ℚ) / (100 : ℚ) * (95 / 100) ≤ (1030000000000000000 : ℚ) / 10 ^ 18 ∧
      (1030000000000000000 : ℚ) / 10 ^ 18 < (100 : ℚ) / (100 : ℚ) * (105 / 100)) := by
    norm_num
  refine ⟨?_, h.2.1⟩
  have h2 := (h.2.2.1 hband).1
  simpa using h2

set_option maxRecDepth 100000 in
/-- **C1**: the validators derive the expected voucher denom as
`"ibc/" + uppercaseHex(SHA256("transfer/" + channelId + "/" + baseDenom))`
with `channelId` the configured host(Neutron)-to-party channel — the channel
id on the receiving side of the hop — and record the configured
`native_denom` as `verified` iff it equals the derived string exactly
(anything else records an `invalid denom` error).  The derivation matches
the ICS-20 reference vector for `transfer/channel-0/uatom`. -/
theorem voucher_denom_derivation :
    (∀ (ctx : Ctx) (key channelId baseDenom nativeDenom : String),
      (nativeDenom = derive_voucher_denom channelId baseDenom →
        verify_native_denom ctx key channelId baseDenom nativeDenom =
          ctx.valid_field key "native_denom" "verified") ∧
      (nativeDenom ≠ derive_voucher_denom channelId baseDenom →
        verify_native_denom ctx key channelId baseDenom nativeDenom =
          ctx.invalid_field key "native_denom"
            ("invalid denom: expected " ++ derive_voucher_denom channelId baseDenom ++
              " | actual " ++ nativeDenom))) ∧
    derive_voucher_denom "channel-0" "uatom" =
      "ibc/27394FB092D2ECCD56123C74F36E4C1F926001CEADA9CA97EA622B25F41E5EB2" := by
  constructor
  · intro ctx key channelId baseDenom nativeDenom
    constructor
    · intro h
      simp [verify_native_denom, verify_equals, derive_voucher_denom] at h ⊢
      simp [h]
    · intro h
      simp [verify_native_denom, verify_equals, derive_voucher_denom] at h ⊢
      simp [h]
  · decide

/-- **C1** (witness): the verification step applied to the reference
channel/denom pair and its derived voucher denom. -/
theorem voucher_denom_derivation_witness :
    verify_native_denom Ctx.empty "party_a_config" "channel-0" "uatom"
        "ibc/27394FB092D2ECCD56123C74F36E4C1F926001CEADA9CA97EA622B25F41E5EB2" =
      Ctx.empty.valid_field "party_a_config" "native_denom" "verified" :=
  (voucher_denom_derivation.1 Ctx.empty "party_a_config" "channel-0" "uatom"
    "ibc/27394FB092D2ECCD56123C74F36E4C1F926001CEADA9CA97EA622B25F41E5EB2").1
    voucher_denom_derivation.2.symm

/-- **C3** (counterexample): with the contract-port flag set, resolving a
stored path with the hub as `chain_1` and resolving the mirror-stored entry
(hub as `chain_2`) yield different data: on
`pathWithTransferBeforeWasm` the hub-as-`chain_1` orientation selects the
`wasm.`-counterpart channel while the mirrored orientation selects the
earlier transfer/transfer channel (the second branch of
`get_path_connection_and_channels` also accepts a plain `transfer`
counterpart when the flag is set). -/
theorem path_mirror_fails_with_wasm_flag :
    get_path_connection_and_channels pathWithTransferBeforeWasm true ≠
      get_path_connection_and_channels (mirrorPath pathWithTransferBeforeWasm) true := by
  decide

/-- **C3** (amended): with the contract-port flag unset, resolving a stored
path between the hub and a distinct counterpart chain yields the same
oriented `(connectionId, forward, reverse)` triple whether the hub is stored
as `chain_1` or as `chain_2` (the stored sides swap, the resolved
directional data never differs); with the flag set the two storages can
resolve to different channels. -/
theorem path_mirror_resolution :
    ∀ (p : IBCPath), p.chain_1.chain_name = "neutron" → p.chain_2.chain_name ≠ "neutron" →
      get_path_connection_and_channels p false =
        get_path_connection_and_channels (mirrorPath p) false := by
  intro p h1 h2
  unfold get_path_connection_and_channels mirrorPath NEUTRON_CHAIN_NAME
  simp only [h1, h2, List.filterMap_map]
  simp [h1, h2]
  rfl

/-- **C3** (witness): the amended statement applied at a concrete stored
path. -/
theorem path_mirror_resolution_witness :
    get_path_connection_and_channels pathWithTransferBeforeWasm false =
      get_path_connection_and_channels (mirrorPath pathWithTransferBeforeWasm) false :=
  path_mirror_resolution pathWithTransferBeforeWasm rfl (by decide)

/-- **C4** (counterexample): the single-party validator's inline resolver
does not select a single entry by the joint hub-port/counterpart-port
predicate: on `pathWithWasmBeforeTransfer` (flag unset) it returns the
forward channel of the first entry (whose counterpart port is `wasm.`-based)
and the reverse channel of the second, differing from the spec's selection. -/
theorem channel_selection_spec_mismatch :
    sp_party_path_resolution pathWithWasmBeforeTransfer ≠
      resolve_channels_spec pathWithWasmBeforeTransfer false := by
  decide

/-- **C4** (amended): in the two-party validator with the hub stored as
`chain_1`, the selection is exactly the claimed one (first entry with
hub-side port `transfer` and counterpart port `transfer`, or `wasm.`-prefixed
when the flag is set).  With the hub stored as `chain_2`, an entry whose
counterpart port is exactly `transfer` also matches even when the flag is
set.  The single-party validator ignores the flag and resolves each
direction independently, whichever side the hub is stored on: the first
entry whose hub-side port is `transfer` supplies the forward channel and the
first entry whose counterpart-side port is `transfer` supplies the reverse
channel — possibly different entries. -/
theorem channel_selection_characterization :
    (∀ (p : IBCPath) (flag : Bool), p.chain_1.chain_name = "neutron" →
      get_path_connection_and_channels p flag = resolve_channels_spec p flag) ∧
    (∀ (p : IBCPath) (flag : Bool), p.chain_1.chain_name ≠ "neutron" →
      get_path_connection_and_channels p flag =
        (p.channels.find? (fun c => c.chain_2.port_id == TRANSFER_PORT_ID &&
            ((flag && starts_with c.chain_1.port_id "wasm.") ||
              c.chain_1.port_id == TRANSFER_PORT_ID))).map
          (fun c => (p.chain_2.connection_id, c.chain_2.channel_id, c.chain_1.channel_id))) ∧
    (∀ (p : IBCPath), p.chain_1.chain_name = "neutron" →
      sp_party_path_resolution p =
        match p.channels.find? (fun c => c.chain_1.port_id == TRANSFER_PORT_ID),
          p.channels.find? (fun c => c.chain_2.port_id == TRANSFER_PORT_ID) with
        | some cf, some cr =>
            some (p.chain_1.connection_id, cf.chain_1.channel_id, cr.chain_2.channel_id)
        | _, _ => none) ∧
    (∀ (p : IBCPath), p.chain_1.chain_name ≠ "neutron" →
      sp_party_path_resolution p =
        match p.channels.find? (fun c => c.chain_2.port_id == TRANSFER_PORT_ID),
          p.channels.find? (fun c => c.chain_1.port_id == TRANSFER_PORT_ID) with
        | some cf, some cr =>
            some (p.chain_2.connection_id, cf.chain_2.channel_id, cr.chain_1.channel_id)
        | _, _ => none) := by
  refine ⟨fun p flag h => ?_, fun p flag h => ?_, fun p h => ?_, fun p h => ?_⟩
  · unfold get_path_connection_and_channels resolve_channels_spec NEUTRON_CHAIN_NAME
    cases flag <;> simp [h]
  · unfold get_path_connection_and_channels NEUTRON_CHAIN_NAME
    rw [if_neg (by simp [h])]
    rw [head_filterMap_ite]
  · unfold sp_party_path_resolution NEUTRON_CHAIN_NAME
    rw [if_pos (by simp [h]), head_filterMap_ite, head_filterMap_ite]
    rcases hf : p.channels.find? (fun c => c.chain_1.port_id == TRANSFER_PORT_ID) with _ | cf <;>
      rcases hg : p.channels.find? (fun c => c.chain_2.port_id == TRANSFER_PORT_ID) with _ | cr <;>
      simp [hf, hg]
  · unfold sp_party_path_resolution NEUTRON_CHAIN_NAME
    rw [if_neg (by simp [h]), head_filterMap_ite, head_filterMap_ite]
    rcases hf : p.channels.find? (fun c => c.chain_2.port_id == TRANSFER_PORT_ID) with _ | cf <;>
      rcases hg : p.channels.find? (fun c => c.chain_1.port_id == TRANSFER_PORT_ID) with _ | cr <;>
      simp [hf, hg]

/-- **C4** (witness): the amended characterizations applied at concrete
stored paths. -/
theorem channel_selection_characterization_witness :
    get_path_connection_and_channels pathWithTransferBeforeWasm true =
      resolve_channels_spec pathWithTransferBeforeWasm true ∧
    sp_party_path_resolution pathWithWasmBeforeTransfer =
      some ("connection-0", "channel-0", "channel-11") ∧
    sp_party_path_resolution (mirrorPath pathWithWasmBeforeTransfer) =
      some ("connection-0", "channel-0", "channel-11") := by
  refine ⟨channel_selection_characterization.1 pathWithTransferBeforeWasm true rfl, ?_, ?_⟩
  · rw [channel_selection_characterization.2.2.1 pathWithWasmBeforeTransfer rfl]
    decide
  · rw [channel_selection_characterization.2.2.2 (mirrorPath pathWithWasmBeforeTransfer)
      (by decide)]
    decide

/-- **C7** (counterexample): a splits map whose two keys are exactly the two
parties' denoms and whose receiver maps name exactly the two parties'
receivers with weights `0.5 + 0.5 = 1.0` per denom satisfies the claim's
passing condition, yet the validator records the sum-of-splits error and no
passing check: the source additionally requires party A's weight to be
exactly `1.0` in the first denom and party B's to be exactly `1.0` in the
second. -/
theorem splits_even_split_rejected :
    splits_claim_pass evenSplits "uatom" "neutron1partya" "uosmo" "neutron1partyb" = true ∧
    (splits_check Ctx.empty evenSplits
        "uatom" "neutron1partya" "uosmo" "neutron1partyb").map
      (fun c => c.checks "splits") = some [] ∧
    (splits_check Ctx.empty evenSplits
        "uatom" "neutron1partya" "uosmo" "neutron1partyb").map
      (fun c => c.errors "splits") =
      some [": invalid splits: sum of splits should be 1.0"] := by
  refine ⟨by decide, by decide, by decide⟩

/-- **C7** (amended): when the two keys match the parties' denoms in either
order and each receiver-weight sum stays below the `2^128` atomics overflow
(beyond which the source's `Decimal` sum panics), the splits check passes iff
both receiver maps contain both parties' receivers, the first map gives
party A's receiver weight exactly `1.0`, the second gives party B's receiver
weight exactly `1.0`, and each map's weights sum to exactly `1.0`; since the
fixed-point weights are unsigned, any other present receiver (party B in the
first map, party A in the second, or an extra address) is thereby forced to
weight `0`. -/
theorem splits_check_characterization :
    (∀ (ctx : Ctx) (denom_1 denom_2 : String) (cfg_1 cfg_2 : SplitConfig)
      (pa ra pb rb : String),
      ((denom_1 = pa ∧ denom_2 = pb) ∨ (denom_2 = pa ∧ denom_1 = pb)) →
      receivers_sum cfg_1.receivers < 2 ^ 128 →
      receivers_sum cfg_2.receivers < 2 ^ 128 →
      splits_check ctx [(denom_1, cfg_1), (denom_2, cfg_2)] pa ra pb rb =
        some (if (receivers_contains cfg_1.receivers ra ∧
              receivers_contains cfg_1.receivers rb ∧
              receivers_get cfg_1.receivers ra = 10 ^ 18) ∧
            (receivers_sum cfg_1.receivers = 10 ^ 18 ∧
              receivers_contains cfg_2.receivers ra ∧
              receivers_contains cfg_2.receivers rb ∧
              receivers_get cfg_2.receivers rb = 10 ^ 18) ∧
            receivers_sum cfg_2.receivers = 10 ^ 18 then
          ctx.valid_field "splits" "" "verified"
        else ctx.invalid_field "splits" "" "invalid splits: sum of splits should be 1.0")) ∧
    (∀ (l : List (String × Nat)) (ra rb : String), ra ≠ rb →
      receivers_contains l rb = true → receivers_get l ra = 10 ^ 18 →
      receivers_sum l = 10 ^ 18 → receivers_get l rb = 0) := by
  refine ⟨fun ctx denom_1 denom_2 cfg_1 cfg_2 pa ra pb rb h hs1 hs2 => ?_,
    receivers_get_eq_zero_of_other_full⟩
  by_cases h1 : (receivers_contains cfg_1.receivers ra = true ∧
      receivers_contains cfg_1.receivers rb = true ∧
      receivers_get cfg_1.receivers ra = 10 ^ 18) <;>
    by_cases h2 : (receivers_sum cfg_1.receivers = 10 ^ 18 ∧
      receivers_contains cfg_2.receivers ra = true ∧
      receivers_contains cfg_2.receivers rb = true ∧
      receivers_get cfg_2.receivers rb = 10 ^ 18) <;>
    by_cases h3 : receivers_sum cfg_2.receivers = 10 ^ 18 <;>
    norm_num only at h1 h2 h3 hs1 hs2 <;>
    simp [splits_check, h, hs1, hs2, h1, h2, h3, apply_ite]

/-- **C7** (witness): the amended statement applied at a passing concrete
splits map and at the even-split receiver list. -/
theorem splits_check_characterization_witness :
    splits_check Ctx.empty
        [("uatom", ⟨[("neutron1partya", 10 ^ 18), ("neutron1partyb", 0)]⟩),
          ("uosmo", ⟨[("neutron1partya", 0), ("neutron1partyb", 10 ^ 18)]⟩)]
        "uatom" "neutron1partya" "uosmo" "neutron1partyb" =
      some (Ctx.empty.valid_field "splits" "" "verified") ∧
    receivers_get [("neutron1partya", 10 ^ 18), ("neutron1partyb", 0)]
      "neutron1partyb" = 0 := by
  constructor
  · rw [splits_check_characterization.1 Ctx.empty "uatom" "uosmo" _ _
      "uatom" "neutron1partya" "uosmo" "neutron1partyb" (Or.inl ⟨rfl, rfl⟩)
      (by decide) (by decide)]
    rw [if_pos (by decide)]
  · exact splits_check_characterization.2
      [("neutron1partya", 10 ^ 18), ("neutron1partyb", 0)]
      "neutron1partya" "neutron1partyb" (by decide) (by decide) (by decide) (by decide)

end CovenantCli
